import Mathlib

set_option linter.unusedVariables false

namespace SyncStats

/-! Shallow embedding of the Synchronizing_Statistics service core:
job submission handlers and status queries (src/app/routes.py), the
thread pool, job queue and worker loop (src/app/task_runner.py), the
shared registry dictionary (src/app/shared.py), the module level
initialisation (src/app/ package init), and the analytics functions
(src/app/data_ingestor.py). -/

/-- The closed enumeration of job kinds: exactly the nine type strings the
POST handlers of routes.py insert into the jobs dictionary. -/
inductive JobType where
  | states_mean
  | state_mean
  | best5
  | worst5
  | global_mean
  | diff_from_mean
  | state_diff_from_mean
  | mean_by_category
  | state_mean_by_category
deriving DecidableEq, Repr

/-- Embedding of the request JSON dict as the worker reads it with
job_data.get: a missing key yields None, modelled by Option. -/
structure RequestData where
  question : Option String
  state : Option String
deriving DecidableEq, Repr

/-- Fuel based helper for the decimal print; the fuel pattern mirrors the
core Nat.toDigitsCore function underlying the str conversion. -/
def toDecimalAux : Nat → Nat → List Char
  | 0, _ => []
  | fuel + 1, n =>
    if n < 10 then [Nat.digitChar n]
    else toDecimalAux fuel (n / 10) ++ [Nat.digitChar (n % 10)]

/-- Decimal digit list of a natural number, most significant digit first:
the embedding of the Python str conversion applied to the job counter
inside the f-string of the submission handlers (routes.py line 157). -/
def toDecimal (n : Nat) : List Char := toDecimalAux (n + 1) n

/-- Numeric value of a decimal digit character. -/
def digitVal (c : Char) : Nat := c.toNat - 48

/-- Reads back a decimal digit list; used only to certify toDecimal. -/
def ofDecimal (l : List Char) : Nat := l.foldl (fun a c => 10 * a + digitVal c) 0

theorem digitVal_digitChar : ∀ d, d < 10 → digitVal (Nat.digitChar d) = d := by decide

theorem toDecimalAux_foldl : ∀ (fuel n : Nat), n < fuel → ∀ a : Nat,
    (toDecimalAux fuel n).foldl (fun a c => 10 * a + digitVal c) a =
      a * 10 ^ (toDecimalAux fuel n).length + n := by
  intro fuel
  induction fuel with
  | zero => intro n hn; omega
  | succ fuel ih =>
    intro n hn a
    by_cases h : n < 10
    · simp [toDecimalAux, h, digitVal_digitChar n h]
      ring
    · have hd : n / 10 < n := Nat.div_lt_self (by omega) (by omega)
      simp only [toDecimalAux, h, if_false, List.foldl_append, List.length_append,
        List.foldl_cons, List.foldl_nil, List.length_cons, List.length_nil]
      rw [ih (n / 10) (by omega) a]
      rw [digitVal_digitChar (n % 10) (Nat.mod_lt n (by omega))]
      have heq : 10 * (a * 10 ^ (toDecimalAux fuel (n / 10)).length + n / 10) + n % 10 =
          a * (10 ^ (toDecimalAux fuel (n / 10)).length * 10) + (10 * (n / 10) + n % 10) := by
        ring
      rw [heq, Nat.div_add_mod]
      rw [pow_succ]

/-- The decimal print reads back to the number it came from. -/
theorem ofDecimal_toDecimal (n : Nat) : ofDecimal (toDecimal n) = n := by
  unfold ofDecimal toDecimal
  rw [toDecimalAux_foldl (n + 1) n (by omega) 0]
  simp

theorem toDecimal_injective : Function.Injective toDecimal := by
  intro a b h
  have ha := ofDecimal_toDecimal a
  have hb := ofDecimal_toDecimal b
  rw [h] at ha
  exact ha.symm.trans hb

/-- The job id string allocated for a counter value n: the Python f-string
at routes.py line 157 composing the fixed prefix with the decimal print
of the counter. -/
def jobIdString (n : Nat) : String := ⟨"job_id_".data ++ toDecimal n⟩

theorem jobIdString_injective : Function.Injective jobIdString := by
  intro a b h
  have : "job_id_".data ++ toDecimal a = "job_id_".data ++ toDecimal b := by
    exact congrArg String.data h
  exact toDecimal_injective (List.append_cancel_left this)

/-- Exception classes relevant to the worker loop: the except clauses in
task_runner.py name OSError and IOError; dictionary access in
data_ingestor.py can raise KeyError; other denotes any further class. -/
inductive PyExc where
  | osError
  | ioError
  | keyError
  | other
deriving DecidableEq, Repr

/-- Outcome of one call into the analytics engine as seen by the worker:
a returned result mapping, or a raised exception. -/
inductive EngineResult (V : Type) where
  | ok (v : V)
  | raise (e : PyExc)
deriving DecidableEq, Repr

/-- State of the ThreadPool object of task_runner.py: the jobs queue
(front of the list is the next element dequeued), the fixed list of
worker threads created in the constructor, and the accept_jobs flag. -/
structure ThreadPool where
  jobs_queue : List (String × RequestData)
  num_workers : Nat
  accept_jobs : Bool
deriving DecidableEq, Repr

/-- ThreadPool constructor: empty queue, num_threads workers, accepting. -/
def ThreadPool.init (num_threads : Nat) : ThreadPool :=
  { jobs_queue := [], num_workers := num_threads, accept_jobs := true }

/-- ThreadPool.add_job (task_runner.py lines 60 to 69): enqueue the pair
only when accept_jobs holds, otherwise drop the request silently. -/
def ThreadPool.add_job (p : ThreadPool) (job_id : String) (data : RequestData) : ThreadPool :=
  if p.accept_jobs then { p with jobs_queue := p.jobs_queue ++ [(job_id, data)] }
  else p

/-- ThreadPool.shutdown (task_runner.py lines 71 to 81): clear the
accept_jobs flag; the sequential joins on the worker threads do not
change any of the state modelled here. -/
def ThreadPool.shutdown (p : ThreadPool) : ThreadPool :=
  { p with accept_jobs := false }

/-- ThreadPool.get_num_jobs (task_runner.py lines 83 to 87): the current
queue size. -/
def ThreadPool.get_num_jobs (p : ThreadPool) : Nat := p.jobs_queue.length

/-- Combined server state: webserver.job_counter from the package init
(initialised to 1), the shared jobs dictionary from shared.py modelled as
an association list with the most recent insertion first, the ThreadPool,
and the set of result files written so far (file names only). -/
structure SystemState where
  job_counter : Nat
  jobs : List (String × JobType)
  tasks_runner : ThreadPool
  files : List String
deriving DecidableEq, Repr

/-- State of the freshly initialised application (package init file):
job_counter is 1, the jobs dictionary is empty, the pool accepts jobs
with an empty queue, and no result file exists. -/
def initSystem (num_threads : Nat) : SystemState :=
  { job_counter := 1, jobs := [], tasks_runner := ThreadPool.init num_threads, files := [] }

/-- Response of a submission handler: the returned JSON body and the HTTP
status code. -/
structure SubmitResponse where
  job_id : String
  code : Nat
deriving DecidableEq, Repr

/-- Common body of the nine POST handlers of routes.py (for example
states_mean_request, lines 144 to 169): build the id from the counter,
increment the counter, insert the registry entry under jobs_lock, call
add_job on the pool, and return the id with HTTP 200. -/
def handle_submission (jt : JobType) (data : RequestData) (s : SystemState) :
    SubmitResponse × SystemState :=
  let job_id := jobIdString s.job_counter
  let s1 : SystemState := { s with job_counter := s.job_counter + 1 }
  let s2 : SystemState := { s1 with jobs := (job_id, jt) :: s1.jobs }
  let s3 : SystemState := { s2 with tasks_runner := s2.tasks_runner.add_job job_id data }
  ({ job_id := job_id, code := 200 }, s3)

/-- The states_mean endpoint handler (routes.py lines 144 to 169). -/
def states_mean_request (data : RequestData) (s : SystemState) : SubmitResponse × SystemState :=
  handle_submission JobType.states_mean data s

/-- Response of the get_results endpoint: status string, optional reason,
optional parsed payload, HTTP status code. -/
structure ApiResponse (V : Type) where
  status : String
  reason : Option String
  data : Option V
  code : Nat
deriving DecidableEq, Repr

/-- The get_results handler get_response (routes.py lines 82 to 142),
parameterised over the JSON parser (json.load) and the filesystem view
fs mapping a file name to its content when the file exists. The handler
looks the id up in the jobs dictionary; on a miss it returns the invalid
job id error with HTTP 404; otherwise, when the result file exists and
has positive size it parses it, answering done with the value or the
corrupt file error with HTTP 500, and in the remaining cases it answers
running with HTTP 200. -/
def get_response {V : Type} (parse : String → Option V)
    (jobsMap : List (String × JobType)) (fs : String → Option String)
    (job_id : String) : ApiResponse V :=
  match jobsMap.lookup job_id with
  | none => { status := "error", reason := some "Invalid job_id", data := none, code := 404 }
  | some _ =>
    match fs (job_id ++ ".json") with
    | some content =>
      if 0 < content.length then
        match parse content with
        | some v => { status := "done", reason := none, data := some v, code := 200 }
        | none => { status := "error", reason := some "Invalid or corrupt result file",
                    data := none, code := 500 }
      else { status := "running", reason := none, data := none, code := 200 }
    | none => { status := "running", reason := none, data := none, code := 200 }

/-- Outcome of one worker loop iteration: the loop continues (having
written at most one result file), or an uncaught exception propagates
and the worker thread dies. -/
inductive WorkerIterOutcome (V : Type) where
  | continued (write : Option (String × V))
  | crashed (e : PyExc)
deriving DecidableEq, Repr

/-- One iteration of the worker loop body after a successful dequeue
(TaskRunner.run, task_runner.py lines 136 to 190): look the job up in
the jobs dictionary and drop it silently when absent; otherwise dispatch
to the engine inside the try block whose except clause names exactly
OSError and IOError, so an exception of any other class propagates and
kills the worker thread, while an OSError or IOError is caught, logged,
and the loop continues without writing a file. -/
def worker_iteration {V : Type} (engine : JobType → RequestData → EngineResult V)
    (jobsMap : List (String × JobType)) (job_id : String) (job_data : RequestData) :
    WorkerIterOutcome V :=
  match jobsMap.lookup job_id with
  | none => WorkerIterOutcome.continued none
  | some job_type =>
    match engine job_type job_data with
    | EngineResult.ok result => WorkerIterOutcome.continued (some (job_id, result))
    | EngineResult.raise e =>
      if e = PyExc.osError ∨ e = PyExc.ioError then WorkerIterOutcome.continued none
      else WorkerIterOutcome.crashed e

/-- The timeout, in seconds, passed to the blocking dequeue in
TaskRunner.run (task_runner.py line 128). -/
def DEQUEUE_TIMEOUT_SECONDS : Nat := 120

/-- How a worker leaves its loop: the dequeue timed out on an empty
queue and the loop breaks, or an uncaught exception killed the thread. -/
inductive WorkerExit where
  | timedOut
  | crashed (e : PyExc)
deriving DecidableEq, Repr

/-- The worker loop run against a fixed finite backlog: process queue
entries in FIFO order until the queue is exhausted, at which point the
blocking dequeue times out and the loop breaks; an uncaught exception
stops processing immediately. Returns the files written (job id and
value) together with the exit cause. -/
def worker_run {V : Type} (engine : JobType → RequestData → EngineResult V)
    (jobsMap : List (String × JobType)) :
    List (String × RequestData) → List (String × V) × WorkerExit
  | [] => ([], WorkerExit.timedOut)
  | (job_id, d) :: rest =>
    match worker_iteration engine jobsMap job_id d with
    | WorkerIterOutcome.continued w =>
      (w.toList ++ (worker_run engine jobsMap rest).1, (worker_run engine jobsMap rest).2)
    | WorkerIterOutcome.crashed e => ([], WorkerExit.crashed e)

/-- System level events: a POST submission handled by routes.py, one
worker dequeue-and-process step, or the graceful shutdown request. -/
inductive SysEvent where
  | submit (jt : JobType) (d : RequestData)
  | worker
  | shutdown_req
deriving DecidableEq, Repr

/-- One worker dequeue step at system level: pop the queue front, run the
worker iteration on it, and record the result file the iteration wrote,
if any (TaskRunner.run together with save_result_to_file). -/
def sys_worker_step {V : Type} (engine : JobType → RequestData → EngineResult V)
    (s : SystemState) : SystemState :=
  match h : s.tasks_runner.jobs_queue with
  | [] => s
  | (job_id, d) :: rest =>
    let s1 : SystemState := { s with tasks_runner := { s.tasks_runner with jobs_queue := rest } }
    match worker_iteration engine s.jobs job_id d with
    | WorkerIterOutcome.continued (some (wid, _)) => { s1 with files := (wid ++ ".json") :: s1.files }
    | _ => s1

/-- System transition function. -/
def sys_step {V : Type} (engine : JobType → RequestData → EngineResult V) :
    SysEvent → SystemState → SystemState
  | SysEvent.submit jt d, s => (handle_submission jt d s).2
  | SysEvent.worker, s => sys_worker_step engine s
  | SysEvent.shutdown_req, s => { s with tasks_runner := s.tasks_runner.shutdown }

/-- Runs a list of system events from a state. -/
def sys_run {V : Type} (engine : JobType → RequestData → EngineResult V)
    (evs : List SysEvent) (s : SystemState) : SystemState :=
  evs.foldl (fun s ev => sys_step engine ev s) s

/-- Question list from the DataIngestor constructor: questions where a
higher value is better. -/
def questions_best_is_max : List String :=
  ["Percent of adults who achieve at least 150 minutes a week of moderate-intensity aerobicphysical activity or 75 minutes a week of vigorous-intensity aerobic activity (or an equivalent combination)",
   "Percent of adults who achieve at least 150 minutes a week of moderate-intensity aerobic physical activity or 75 minutes a week of vigorous-intensity aerobic physical activity and engage in muscle-strengthening activities on 2 or more days a week",
   "Percent of adults who achieve at least 300 minutes a week of moderate-intensity aerobic physical activity or 150 minutes a week of vigorous-intensity aerobic activity (or an equivalent combination)",
   "Percent of adults who engage in muscle-strengthening activities on 2 or more days a week"]

/-- Bytes are not modelled; a directory listing is the list of file names
with their sizes, the inputs os.listdir and os.path.getsize provide to
the list_jobs handler. -/
abbrev DirListing := List (String × Nat)

/-- Python endswith on strings, character based. -/
def strEndsWith (s suf : String) : Bool := suf.data.isSuffixOf s.data

/-- Python slicing that removes the last n characters (filename[:-5] in
list_jobs uses n = 5). -/
def strDropLast (s : String) (n : Nat) : String := ⟨s.data.take (s.data.length - n)⟩

/-- One entry of the list_jobs response body. -/
structure JobEntry where
  job_id : String
  status : String
deriving DecidableEq, Repr

/-- The list_jobs response body. -/
structure JobsListing where
  status : String
  data : List JobEntry
deriving DecidableEq, Repr

/-- The list_jobs handler (routes.py lines 25 to 67): walk the results
directory, keep the files ending in .json, strip that extension to
recover the job id, and classify each file as done when its size is
positive and running otherwise. The jobs registry is never consulted. -/
def list_jobs (dir : DirListing) : JobsListing :=
  { status := "success",
    data := (dir.filter (fun f => strEndsWith f.1 ".json")).map
      (fun f => { job_id := strDropLast f.1 5,
                  status := if 0 < f.2 then "done" else "running" }) }

/-- Record of one source location that touches the shared jobs dictionary
of shared.py, with whether the touch is a write and whether it happens
inside a with jobs_lock block. -/
structure RegistryAccess where
  source : String
  is_write : Bool
  under_jobs_lock : Bool
deriving DecidableEq, Repr

/-- The insert jobs[job_id] = ... performed by every submission handler
(routes.py lines 162 to 163 and the eight analogous handlers): the
statement is inside a with jobs_lock block. -/
def submission_insert_access : RegistryAccess :=
  { source := "routes.py submission handlers", is_write := true, under_jobs_lock := true }

/-- The read jobs.get(job_id) in get_response (routes.py line 95): there
is no enclosing with jobs_lock block. -/
def status_lookup_access : RegistryAccess :=
  { source := "routes.py get_response", is_write := false, under_jobs_lock := false }

/-- The read jobs.get(job_id) after the dequeue in TaskRunner.run
(task_runner.py line 137): there is no enclosing with jobs_lock block;
task_runner.py imports jobs from shared.py but not jobs_lock. -/
def worker_lookup_access : RegistryAccess :=
  { source := "task_runner.py TaskRunner.run", is_write := false, under_jobs_lock := false }

/-- All accesses to the shared jobs dictionary in the source. -/
def registry_accesses : List RegistryAccess :=
  [submission_insert_access, status_lookup_access, worker_lookup_access]

/-- Runs a sequence of submissions through the common handler body,
collecting the returned job ids in issuance order. -/
def runSubmissions : List (JobType × RequestData) → SystemState → List String × SystemState
  | [], s => ([], s)
  | (jt, d) :: rest, s =>
    ((handle_submission jt d s).1.job_id ::
        (runSubmissions rest (handle_submission jt d s).2).1,
     (runSubmissions rest (handle_submission jt d s).2).2)

/-- A job id that the system can no longer process: intake is closed, the
id is not in the queue, and no result file for it exists. -/
def deadJob (id : String) (s : SystemState) : Prop :=
  s.tasks_runner.accept_jobs = false ∧
  id ∉ s.tasks_runner.jobs_queue.map Prod.fst ∧
  (id ++ ".json") ∉ s.files

/-! Helper lemmas. -/

theorem handle_submission_job_counter (jt : JobType) (d : RequestData) (s : SystemState) :
    (handle_submission jt d s).2.job_counter = s.job_counter + 1 := rfl

theorem handle_submission_job_id (jt : JobType) (d : RequestData) (s : SystemState) :
    (handle_submission jt d s).1.job_id = jobIdString s.job_counter := rfl

theorem runSubmissions_ids (reqs : List (JobType × RequestData)) : ∀ s : SystemState,
    (runSubmissions reqs s).1 =
      (List.range reqs.length).map (fun i => jobIdString (s.job_counter + i)) := by
  induction reqs with
  | nil => intro s; simp [runSubmissions]
  | cons hd tl ih =>
    intro s
    obtain ⟨jt, d⟩ := hd
    simp only [runSubmissions, List.length_cons, List.range_succ_eq_map, List.map_cons,
      List.map_map]
    rw [ih (handle_submission jt d s).2, handle_submission_job_counter,
      handle_submission_job_id]
    refine List.cons_eq_cons.mpr ⟨?_, ?_⟩
    · show jobIdString s.job_counter = jobIdString (s.job_counter + 0)
      congr 1
    · apply List.map_congr_left
      intro i hi
      simp only [Function.comp_apply]
      congr 1
      omega

/-- C1: starting from the freshly initialised server, the ids returned by
any sequence of submissions are exactly job_id_(i+1) for the i-th
submission, with the counter starting at 1 and incremented once per
submission; the ids are pairwise distinct, and their counter values are
strictly increasing in issuance order. -/
theorem C1_job_ids_unique_strictly_increasing (nt : Nat)
    (reqs : List (JobType × RequestData)) :
    (runSubmissions reqs (initSystem nt)).1 =
      (List.range reqs.length).map (fun i => jobIdString (i + 1)) ∧
    (runSubmissions reqs (initSystem nt)).1.Nodup ∧
    List.Pairwise (fun a b => ∃ m n, a = jobIdString m ∧ b = jobIdString n ∧ m < n)
      (runSubmissions reqs (initSystem nt)).1 := by
  have hinj : Function.Injective (fun i => jobIdString (i + 1)) := by
    intro a b h
    have := jobIdString_injective h
    omega
  have hids : (runSubmissions reqs (initSystem nt)).1 =
      (List.range reqs.length).map (fun i => jobIdString (i + 1)) := by
    rw [runSubmissions_ids]
    apply List.map_congr_left
    intro i hi
    show jobIdString ((initSystem nt).job_counter + i) = jobIdString (i + 1)
    have hc : (initSystem nt).job_counter = 1 := rfl
    rw [hc]
    congr 1
    omega
  refine ⟨hids, ?_, ?_⟩
  · rw [hids]
    exact (List.nodup_range _).map hinj
  · rw [hids, List.pairwise_map]
    refine (List.pairwise_lt_range _).imp ?_
    intro a b hab
    exact ⟨a + 1, b + 1, rfl, rfl, by omega⟩

/-- C2: the status query answers the not-found error with HTTP 404
exactly when the registry has no entry for the id; with an entry, it
answers running when the result file is absent or empty, done with the
parsed value when the file is non-empty and parses, and the corrupt-file
error with HTTP 500 when the file is non-empty and fails to parse. -/
theorem C2_status_query_cases {V : Type} (parse : String → Option V)
    (jobsMap : List (String × JobType)) (fs : String → Option String) (job_id : String) :
    (get_response parse jobsMap fs job_id =
        { status := "error", reason := some "Invalid job_id", data := none, code := 404 } ↔
      jobsMap.lookup job_id = none) ∧
    (jobsMap.lookup job_id ≠ none →
      ((fs (job_id ++ ".json") = none ∨
          (∃ c, fs (job_id ++ ".json") = some c ∧ c.length = 0) →
        get_response parse jobsMap fs job_id =
          { status := "running", reason := none, data := none, code := 200 }) ∧
      (∀ c v, fs (job_id ++ ".json") = some c → 0 < c.length → parse c = some v →
        get_response parse jobsMap fs job_id =
          { status := "done", reason := none, data := some v, code := 200 }) ∧
      (∀ c, fs (job_id ++ ".json") = some c → 0 < c.length → parse c = none →
        get_response parse jobsMap fs job_id =
          { status := "error", reason := some "Invalid or corrupt result file",
            data := none, code := 500 }))) := by
  constructor
  · constructor
    · intro h
      cases hl : jobsMap.lookup job_id with
      | none => rfl
      | some jt =>
        exfalso
        simp only [get_response, hl] at h
        cases hf : fs (job_id ++ ".json") with
        | none => simp only [hf] at h; simp at h
        | some c =>
          simp only [hf] at h
          by_cases hc : 0 < c.length
          · rw [if_pos hc] at h
            cases hp : parse c with
            | none => simp only [hp] at h; simp at h
            | some v => simp only [hp] at h; simp at h
          · rw [if_neg hc] at h; simp at h
    · intro h
      simp only [get_response, h]
  · intro hl
    cases hsome : jobsMap.lookup job_id with
    | none => exact absurd hsome hl
    | some jt =>
      refine ⟨?_, ?_, ?_⟩
      · intro hcase
        simp only [get_response, hsome]
        rcases hcase with hf | ⟨c, hf, hc⟩
        · simp only [hf]
        · simp only [hf]
          rw [if_neg (by omega)]
      · intro c v hf hc hp
        simp only [get_response, hsome, hf]
        rw [if_pos hc]
        simp only [hp]
      · intro c hf hc hp
        simp only [get_response, hsome, hf]
        rw [if_pos hc]
        simp only [hp]

/-- Witness for C2 at concrete inputs: an unregistered id yields the
not-found error, and a registered id with no result file yields running. -/
theorem C2_status_query_cases_witness :
    get_response (V := Unit) (fun _ => none) [] (fun _ => none) "job_id_1" =
      { status := "error", reason := some "Invalid job_id", data := none, code := 404 } ∧
    get_response (V := Unit) (fun _ => none) [("job_id_1", JobType.global_mean)]
        (fun _ => none) "job_id_1" =
      { status := "running", reason := none, data := none, code := 200 } :=
  ⟨(C2_status_query_cases (fun _ => none) [] (fun _ => none) "job_id_1").1.mpr rfl,
   ((C2_status_query_cases (fun _ => none) [("job_id_1", JobType.global_mean)]
        (fun _ => none) "job_id_1").2 (by decide)).1 (Or.inl rfl)⟩

/-- Engine returning the unit result for every job, used in concrete
runs where the computed value is irrelevant. -/
def engineUnit : JobType → RequestData → EngineResult Unit :=
  fun _ _ => EngineResult.ok ()

/-- A concrete request body. -/
def reqd0 : RequestData := { question := some "Q", state := none }

/-- C3 counterexample: run shutdown and then one submission from the
initial state. The queue is empty at every point of the run, so the job
was never enqueued and is never accepted for processing, yet a registry
entry for job_id_1 exists; the claimed only-if direction of the registry
invariant fails on the code. -/
theorem C3_counterexample :
    (initSystem 1).tasks_runner.jobs_queue = [] ∧
    (sys_run engineUnit [SysEvent.shutdown_req] (initSystem 1)).tasks_runner.jobs_queue = [] ∧
    (sys_run engineUnit [SysEvent.shutdown_req, SysEvent.submit JobType.states_mean reqd0]
        (initSystem 1)).tasks_runner.jobs_queue = [] ∧
    ((sys_run engineUnit [SysEvent.shutdown_req, SysEvent.submit JobType.states_mean reqd0]
        (initSystem 1)).jobs.lookup "job_id_1") = some JobType.states_mean := by
  refine ⟨rfl, rfl, rfl, ?_⟩
  decide

/-- C3 amended: a registry entry for the fresh id is always created by
the submission handler, before the id is returned to the caller, and
every enqueued job has such an entry; however, when intake has stopped,
the handler still creates the entry while the enqueue is skipped, so an
entry can exist for a job that was never accepted for processing. -/
theorem C3_registry_entry_amended (s : SystemState) (jt : JobType) (d : RequestData) :
    (handle_submission jt d s).2.jobs.lookup (jobIdString s.job_counter) = some jt ∧
    (handle_submission jt d s).1.job_id = jobIdString s.job_counter ∧
    (s.tasks_runner.accept_jobs = true →
      (handle_submission jt d s).2.tasks_runner.jobs_queue =
        s.tasks_runner.jobs_queue ++ [(jobIdString s.job_counter, d)]) ∧
    (s.tasks_runner.accept_jobs = false →
      (handle_submission jt d s).2.tasks_runner.jobs_queue = s.tasks_runner.jobs_queue) := by
  refine ⟨?_, rfl, ?_, ?_⟩
  · simp [handle_submission, List.lookup_cons]
  · intro h
    simp [handle_submission, ThreadPool.add_job, h]
  · intro h
    simp [handle_submission, ThreadPool.add_job, h]

/-- Witness for C3 amended at a concrete post-shutdown state. -/
theorem C3_registry_entry_amended_witness :
    (handle_submission JobType.states_mean reqd0
        (sys_step engineUnit SysEvent.shutdown_req (initSystem 1))).2.jobs.lookup
      (jobIdString 1) = some JobType.states_mean ∧
    (handle_submission JobType.states_mean reqd0
        (sys_step engineUnit SysEvent.shutdown_req (initSystem 1))).2.tasks_runner.jobs_queue =
      [] :=
  ⟨(C3_registry_entry_amended (sys_step engineUnit SysEvent.shutdown_req (initSystem 1))
      JobType.states_mean reqd0).1,
   (C3_registry_entry_amended (sys_step engineUnit SysEvent.shutdown_req (initSystem 1))
      JobType.states_mean reqd0).2.2.2 rfl⟩

theorem string_append_right_cancel {a b c : String} (h : a ++ c = b ++ c) : a = b := by
  cases a with
  | mk da =>
    cases b with
    | mk db =>
      have hd := congrArg String.data h
      simp only [String.data_append] at hd
      have hdd : da = db := List.append_cancel_right hd
      rw [hdd]

theorem worker_iteration_write_id {V : Type} (engine : JobType → RequestData → EngineResult V)
    (jobsMap : List (String × JobType)) (job_id : String) (d : RequestData)
    (wid : String) (v : V)
    (h : worker_iteration engine jobsMap job_id d = WorkerIterOutcome.continued (some (wid, v))) :
    wid = job_id := by
  unfold worker_iteration at h
  cases hl : jobsMap.lookup job_id with
  | none => rw [hl] at h; simp at h
  | some jt =>
    rw [hl] at h
    have h2 : (match engine jt d with
        | EngineResult.ok result => WorkerIterOutcome.continued (some (job_id, result))
        | EngineResult.raise e =>
          if e = PyExc.osError ∨ e = PyExc.ioError then WorkerIterOutcome.continued none
          else WorkerIterOutcome.crashed e) =
        WorkerIterOutcome.continued (some (wid, v)) := h
    cases he : engine jt d with
    | ok r =>
      rw [he] at h2
      simp at h2
      exact h2.1.symm
    | raise e =>
      rw [he] at h2
      have h3 : (if e = PyExc.osError ∨ e = PyExc.ioError then
            WorkerIterOutcome.continued (V := V) none
          else WorkerIterOutcome.crashed e) =
          WorkerIterOutcome.continued (some (wid, v)) := h2
      split at h3 <;> simp at h3

theorem sys_worker_step_jobs {V : Type} (engine : JobType → RequestData → EngineResult V)
    (s : SystemState) : (sys_worker_step engine s).jobs = s.jobs := by
  simp only [sys_worker_step]
  split
  · rfl
  · split <;> rfl

theorem deadJob_sys_step {V : Type} (engine : JobType → RequestData → EngineResult V)
    (ev : SysEvent) (id : String) (s : SystemState) (h : deadJob id s) :
    deadJob id (sys_step engine ev s) := by
  obtain ⟨hacc, hq, hf⟩ := h
  cases ev with
  | submit jt d =>
    refine ⟨?_, ?_, ?_⟩
    · simp [sys_step, handle_submission, ThreadPool.add_job, hacc]
    · simpa [sys_step, handle_submission, ThreadPool.add_job, hacc] using hq
    · simpa [sys_step, handle_submission, ThreadPool.add_job, hacc] using hf
  | worker =>
    simp only [sys_step, sys_worker_step]
    split
    · exact ⟨hacc, hq, hf⟩
    · rename_i job_id d rest hq'
      have hne : job_id ≠ id := by
        intro hcontra
        apply hq
        rw [hq', List.map_cons, hcontra]
        exact List.mem_cons_self _ _
      have hrest : id ∉ rest.map Prod.fst := by
        intro hmem
        apply hq
        rw [hq', List.map_cons]
        exact List.mem_cons.mpr (Or.inr hmem)
      cases hiter : worker_iteration engine s.jobs job_id d with
      | continued w =>
        cases w with
        | none => simp only [hiter]; exact ⟨hacc, hrest, hf⟩
        | some pr =>
          obtain ⟨wid, v⟩ := pr
          have hwid : wid = job_id :=
            worker_iteration_write_id engine s.jobs job_id d wid v hiter
          simp only [hiter]
          refine ⟨hacc, hrest, ?_⟩
          intro hmem
          rcases List.mem_cons.mp hmem with heq | hmem2
          · have hwid2 : id = job_id := (string_append_right_cancel heq).trans hwid
            exact hne hwid2.symm
          · exact hf hmem2
      | crashed e => simp only [hiter]; exact ⟨hacc, hrest, hf⟩
  | shutdown_req => exact ⟨rfl, hq, hf⟩

theorem deadJob_sys_run {V : Type} (engine : JobType → RequestData → EngineResult V)
    (evs : List SysEvent) (id : String) : ∀ s : SystemState,
    deadJob id s → deadJob id (sys_run engine evs s) := by
  induction evs with
  | nil => intro s h; exact h
  | cons ev evs ih =>
    intro s h
    exact ih (sys_step engine ev s) (deadJob_sys_step engine ev id s h)

/-- C4: when intake is closed, a submission call leaves the queue
contents and depth unchanged (add_job drops the request, and shutdown is
what closes intake), and the job submitted after shutdown is never
processed: its id never enters the queue and no result file for it is
ever written, under any continuation of the run. -/
theorem C4_submit_after_shutdown_noop {V : Type}
    (engine : JobType → RequestData → EngineResult V)
    (s : SystemState) (jt : JobType) (d : RequestData)
    (hacc : s.tasks_runner.accept_jobs = false)
    (hq : jobIdString s.job_counter ∉ s.tasks_runner.jobs_queue.map Prod.fst)
    (hf : (jobIdString s.job_counter ++ ".json") ∉ s.files) :
    (∀ (p : ThreadPool) (id : String) (d2 : RequestData),
      p.accept_jobs = false → p.add_job id d2 = p) ∧
    (∀ p : ThreadPool, p.shutdown.accept_jobs = false) ∧
    (handle_submission jt d s).2.tasks_runner.jobs_queue = s.tasks_runner.jobs_queue ∧
    (handle_submission jt d s).2.tasks_runner.get_num_jobs = s.tasks_runner.get_num_jobs ∧
    (∀ evs : List SysEvent,
      jobIdString s.job_counter ∉
        (sys_run engine evs (handle_submission jt d s).2).tasks_runner.jobs_queue.map Prod.fst ∧
      (jobIdString s.job_counter ++ ".json") ∉
        (sys_run engine evs (handle_submission jt d s).2).files) := by
  have hqueue : (handle_submission jt d s).2.tasks_runner.jobs_queue =
      s.tasks_runner.jobs_queue := by
    simp [handle_submission, ThreadPool.add_job, hacc]
  have hdead : deadJob (jobIdString s.job_counter) (handle_submission jt d s).2 := by
    refine ⟨?_, ?_, ?_⟩
    · simp [handle_submission, ThreadPool.add_job, hacc]
    · rw [hqueue]; exact hq
    · exact hf
  refine ⟨?_, ?_, hqueue, ?_, ?_⟩
  · intro p id d2 h
    simp [ThreadPool.add_job, h]
  · intro p
    rfl
  · simp only [ThreadPool.get_num_jobs, hqueue]
  · intro evs
    have h2 := deadJob_sys_run engine evs (jobIdString s.job_counter)
      (handle_submission jt d s).2 hdead
    exact ⟨h2.2.1, h2.2.2⟩

/-- Witness for C4 at a concrete post-shutdown state with one further
worker step. -/
theorem C4_submit_after_shutdown_noop_witness :
    (handle_submission JobType.global_mean reqd0
        (sys_step engineUnit SysEvent.shutdown_req (initSystem 2))).2.tasks_runner.jobs_queue =
      (sys_step engineUnit SysEvent.shutdown_req (initSystem 2)).tasks_runner.jobs_queue ∧
    (jobIdString 1 ++ ".json") ∉
      (sys_run engineUnit [SysEvent.worker]
        (handle_submission JobType.global_mean reqd0
          (sys_step engineUnit SysEvent.shutdown_req (initSystem 2))).2).files := by
  have h := C4_submit_after_shutdown_noop engineUnit
    (sys_step engineUnit SysEvent.shutdown_req (initSystem 2)) JobType.global_mean reqd0
    rfl (List.not_mem_nil _) (List.not_mem_nil _)
  exact ⟨h.2.2.1, (h.2.2.2.2 [SysEvent.worker]).2⟩

theorem lookup_isSome_sys_step {V : Type} (engine : JobType → RequestData → EngineResult V)
    (ev : SysEvent) (id : String) (s : SystemState)
    (h : (s.jobs.lookup id).isSome = true) :
    ((sys_step engine ev s).jobs.lookup id).isSome = true := by
  cases ev with
  | submit jt d =>
    show (((jobIdString s.job_counter, jt) :: s.jobs).lookup id).isSome = true
    rw [List.lookup_cons]
    cases hbeq : id == jobIdString s.job_counter with
    | true => rfl
    | false => exact h
  | worker =>
    show ((sys_worker_step engine s).jobs.lookup id).isSome = true
    rw [sys_worker_step_jobs]
    exact h
  | shutdown_req => exact h

theorem lookup_isSome_sys_run {V : Type} (engine : JobType → RequestData → EngineResult V)
    (evs : List SysEvent) (id : String) : ∀ s : SystemState,
    (s.jobs.lookup id).isSome = true →
    ((sys_run engine evs s).jobs.lookup id).isSome = true := by
  induction evs with
  | nil => intro s h; exact h
  | cons ev evs ih =>
    intro s h
    exact ih (sys_step engine ev s) (lookup_isSome_sys_step engine ev id s h)

/-- C10: a submission handled after shutdown has stopped intake still
increments the job counter, creates the registry entry for the fresh id,
and returns HTTP 200 with that id; only the enqueue is skipped, so under
any continuation of the run no result file for the id is ever written,
the registry entry persists, and any status query whose filesystem view
contains only files the system has written answers running. -/
theorem C10_post_shutdown_submission {V : Type}
    (engine : JobType → RequestData → EngineResult V)
    (s : SystemState) (jt : JobType) (d : RequestData)
    (hacc : s.tasks_runner.accept_jobs = false)
    (hq : jobIdString s.job_counter ∉ s.tasks_runner.jobs_queue.map Prod.fst)
    (hf : (jobIdString s.job_counter ++ ".json") ∉ s.files) :
    (handle_submission jt d s).1 = { job_id := jobIdString s.job_counter, code := 200 } ∧
    (handle_submission jt d s).2.job_counter = s.job_counter + 1 ∧
    (handle_submission jt d s).2.jobs.lookup (jobIdString s.job_counter) = some jt ∧
    (handle_submission jt d s).2.tasks_runner.jobs_queue = s.tasks_runner.jobs_queue ∧
    (∀ evs : List SysEvent,
      ((sys_run engine evs (handle_submission jt d s).2).jobs.lookup
          (jobIdString s.job_counter)).isSome = true ∧
      (jobIdString s.job_counter ++ ".json") ∉
        (sys_run engine evs (handle_submission jt d s).2).files ∧
      ∀ (W : Type) (parse : String → Option W) (fs : String → Option String),
        (∀ nm, nm ∉ (sys_run engine evs (handle_submission jt d s).2).files → fs nm = none) →
        get_response parse (sys_run engine evs (handle_submission jt d s).2).jobs fs
            (jobIdString s.job_counter) =
          { status := "running", reason := none, data := none, code := 200 }) := by
  have hqueue : (handle_submission jt d s).2.tasks_runner.jobs_queue =
      s.tasks_runner.jobs_queue := by
    simp [handle_submission, ThreadPool.add_job, hacc]
  have hdead : deadJob (jobIdString s.job_counter) (handle_submission jt d s).2 := by
    refine ⟨?_, ?_, hf⟩
    · simp [handle_submission, ThreadPool.add_job, hacc]
    · rw [hqueue]; exact hq
  have hlook : (handle_submission jt d s).2.jobs.lookup (jobIdString s.job_counter) =
      some jt := by
    simp [handle_submission, List.lookup_cons]
  refine ⟨rfl, rfl, hlook, hqueue, ?_⟩
  intro evs
  have hdead2 := deadJob_sys_run engine evs (jobIdString s.job_counter)
    (handle_submission jt d s).2 hdead
  have hlook2 := lookup_isSome_sys_run engine evs (jobIdString s.job_counter)
    (handle_submission jt d s).2 (by rw [hlook]; rfl)
  refine ⟨hlook2, hdead2.2.2, ?_⟩
  intro W parse fs hfs
  have hfs2 : fs (jobIdString s.job_counter ++ ".json") = none := hfs _ hdead2.2.2
  rcases Option.isSome_iff_exists.mp hlook2 with ⟨jt2, hjt2⟩
  simp only [get_response, hjt2, hfs2]

/-- Witness for C10 at a concrete post-shutdown state with one further
worker step. -/
theorem C10_post_shutdown_submission_witness :
    (handle_submission JobType.states_mean reqd0
        (sys_step engineUnit SysEvent.shutdown_req (initSystem 1))).1 =
      { job_id := jobIdString 1, code := 200 } ∧
    get_response (V := Unit) (fun _ => none)
        (sys_run engineUnit [SysEvent.worker]
          (handle_submission JobType.states_mean reqd0
            (sys_step engineUnit SysEvent.shutdown_req (initSystem 1))).2).jobs
        (fun _ => none) (jobIdString 1) =
      { status := "running", reason := none, data := none, code := 200 } := by
  have h := C10_post_shutdown_submission engineUnit
    (sys_step engineUnit SysEvent.shutdown_req (initSystem 1)) JobType.states_mean reqd0
    rfl (List.not_mem_nil _) (List.not_mem_nil _)
  exact ⟨h.1, ((h.2.2.2.2 [SysEvent.worker]).2.2 Unit (fun _ => none) (fun _ => none)
    (fun _ _ => rfl))⟩

/-- Engine raising the given exception on every call, used in concrete
fault runs. -/
def engineRaises (e : PyExc) : JobType → RequestData → EngineResult Unit :=
  fun _ _ => EngineResult.raise e

/-- C6 counterexample: an engine fault of class OSError does not
propagate; the worker loop catches it and continues, so faults do not
kill the worker regardless of exception class, contrary to the claim. -/
theorem C6_counterexample :
    worker_iteration (engineRaises PyExc.osError)
        [("job_id_1", JobType.global_mean)] "job_id_1" reqd0 =
      WorkerIterOutcome.continued none ∧
    WorkerIterOutcome.continued (V := Unit) none ≠
      WorkerIterOutcome.crashed PyExc.osError :=
  ⟨rfl, by decide⟩

/-- C6 amended: when the registry has the entry and the engine raises, the
worker thread dies exactly when the exception class is neither OSError
nor IOError; an OSError or IOError raised during dispatch is caught by
the except clause of the worker loop, which continues without writing a
result file. -/
theorem C6_engine_fault_amended {V : Type} (engine : JobType → RequestData → EngineResult V)
    (jobsMap : List (String × JobType)) (job_id : String) (d : RequestData)
    (jt : JobType) (e : PyExc)
    (hl : jobsMap.lookup job_id = some jt) (he : engine jt d = EngineResult.raise e) :
    (worker_iteration engine jobsMap job_id d = WorkerIterOutcome.crashed e ↔
      (e ≠ PyExc.osError ∧ e ≠ PyExc.ioError)) ∧
    ((e = PyExc.osError ∨ e = PyExc.ioError) →
      worker_iteration engine jobsMap job_id d = WorkerIterOutcome.continued none) := by
  have hred : worker_iteration engine jobsMap job_id d =
      (if e = PyExc.osError ∨ e = PyExc.ioError then WorkerIterOutcome.continued none
       else WorkerIterOutcome.crashed e) := by
    unfold worker_iteration
    rw [hl]
    show (match engine jt d with
        | EngineResult.ok result => WorkerIterOutcome.continued (some (job_id, result))
        | EngineResult.raise e =>
          if e = PyExc.osError ∨ e = PyExc.ioError then WorkerIterOutcome.continued none
          else WorkerIterOutcome.crashed e) = _
    rw [he]
  constructor
  · rw [hred]
    by_cases hcase : e = PyExc.osError ∨ e = PyExc.ioError
    · rw [if_pos hcase]
      constructor
      · intro hcontra
        simp at hcontra
      · intro hne
        exact absurd hcase (not_or.mpr hne)
    · rw [if_neg hcase]
      constructor
      · intro _
        exact not_or.mp hcase
      · intro _
        rfl
  · intro hcase
    rw [hred, if_pos hcase]

/-- Witness for C6 amended: a KeyError kills the worker while an IOError
is caught and the loop continues. -/
theorem C6_engine_fault_amended_witness :
    worker_iteration (engineRaises PyExc.keyError)
        [("job_id_1", JobType.global_mean)] "job_id_1" reqd0 =
      WorkerIterOutcome.crashed PyExc.keyError ∧
    worker_iteration (engineRaises PyExc.ioError)
        [("job_id_1", JobType.global_mean)] "job_id_1" reqd0 =
      WorkerIterOutcome.continued none :=
  ⟨(C6_engine_fault_amended (engineRaises PyExc.keyError)
      [("job_id_1", JobType.global_mean)] "job_id_1" reqd0 JobType.global_mean
      PyExc.keyError rfl rfl).1.mpr (by decide),
   (C6_engine_fault_amended (engineRaises PyExc.ioError)
      [("job_id_1", JobType.global_mean)] "job_id_1" reqd0 JobType.global_mean
      PyExc.ioError rfl rfl).2 (Or.inr rfl)⟩

/-- C7 counterexample: it is not the case that every access to the jobs
dictionary executes under jobs_lock; the two lookups are lock free. -/
theorem C7_counterexample :
    registry_accesses.all (fun a => a.under_jobs_lock) = false :=
  rfl

/-- C7 amended: the registry insert of the submission handlers executes
under jobs_lock, but both reads, the status query lookup in get_response
and the post-dequeue lookup in the worker loop, access the map without
holding the lock. -/
theorem C7_registry_lock_amended :
    submission_insert_access.under_jobs_lock = true ∧
    submission_insert_access.is_write = true ∧
    status_lookup_access.under_jobs_lock = false ∧
    worker_lookup_access.under_jobs_lock = false ∧
    registry_accesses =
      [submission_insert_access, status_lookup_access, worker_lookup_access] :=
  ⟨rfl, rfl, rfl, rfl, rfl⟩

/-- C8: the blocking dequeue uses a 120 second timeout; on an exhausted
queue the loop breaks and the worker terminates (the only other exit is
an uncaught exception), so the worker loop terminates on every finite
backlog once the queue stays empty; and no pool or system operation ever
changes the number of workers, so a terminated worker is never
recreated. -/
theorem C8_worker_timeout_and_fixed_pool {V : Type}
    (engine : JobType → RequestData → EngineResult V)
    (jobsMap : List (String × JobType)) :
    DEQUEUE_TIMEOUT_SECONDS = 120 ∧
    worker_run engine jobsMap [] = ([], WorkerExit.timedOut) ∧
    (∀ backlog : List (String × RequestData),
      (worker_run engine jobsMap backlog).2 = WorkerExit.timedOut ∨
      ∃ e, (worker_run engine jobsMap backlog).2 = WorkerExit.crashed e) ∧
    (∀ (p : ThreadPool) (id : String) (d : RequestData),
      (p.add_job id d).num_workers = p.num_workers) ∧
    (∀ p : ThreadPool, p.shutdown.num_workers = p.num_workers) ∧
    (∀ (s : SystemState) (ev : SysEvent),
      (sys_step engine ev s).tasks_runner.num_workers = s.tasks_runner.num_workers) := by
  refine ⟨rfl, rfl, ?_, ?_, ?_, ?_⟩
  · intro backlog
    induction backlog with
    | nil => left; rfl
    | cons hd tl ih =>
      obtain ⟨job_id, d⟩ := hd
      simp only [worker_run]
      cases hiter : worker_iteration engine jobsMap job_id d with
      | continued w => simpa using ih
      | crashed e => right; exact ⟨e, rfl⟩
  · intro p id d
    by_cases hacc : p.accept_jobs <;> simp [ThreadPool.add_job, hacc]
  · intro p
    rfl
  · intro s ev
    cases ev with
    | submit jt d =>
      show (s.tasks_runner.add_job (jobIdString s.job_counter) d).num_workers =
        s.tasks_runner.num_workers
      by_cases hacc : s.tasks_runner.accept_jobs <;> simp [ThreadPool.add_job, hacc]
    | worker =>
      show (sys_worker_step engine s).tasks_runner.num_workers = s.tasks_runner.num_workers
      simp only [sys_worker_step]
      split
      · rfl
      · split <;> rfl
    | shutdown_req => rfl

theorem strEndsWith_append (s : String) : strEndsWith (s ++ ".json") ".json" = true := by
  simp [strEndsWith, List.isSuffixOf_iff_suffix, String.data_append]

theorem strDropLast_append_5 (s : String) : strDropLast (s ++ ".json") 5 = s := by
  cases s with
  | mk d2 =>
    show String.mk (((String.mk d2 ++ ".json").data).take
      ((String.mk d2 ++ ".json").data.length - 5)) = String.mk d2
    congr 1
    simp only [String.data_append]
    have hlen : (String.data ".json").length = 5 := rfl
    show (d2 ++ String.data ".json").take ((d2 ++ String.data ".json").length - 5) = d2
    rw [List.length_append, hlen]
    have h55 : d2.length + 5 - 5 = d2.length := by omega
    rw [h55]
    exact List.take_left d2 _

theorem strEndsWith_decomp (s : String) (h : strEndsWith s ".json" = true) :
    s = strDropLast s 5 ++ ".json" := by
  have hsuf : (String.data ".json") <:+ s.data := by
    simpa [strEndsWith, List.isSuffixOf_iff_suffix] using h
  obtain ⟨t, ht⟩ := hsuf
  cases s with
  | mk d2 =>
    show String.mk d2 = String.mk (d2.take (d2.length - 5)) ++ ".json"
    have hrw : String.mk (d2.take (d2.length - 5)) ++ ".json" =
        String.mk (d2.take (d2.length - 5) ++ String.data ".json") := rfl
    rw [hrw]
    congr 1
    have hd2 : d2 = t ++ String.data ".json" := ht.symm
    rw [hd2]
    have hlen : (String.data ".json").length = 5 := rfl
    rw [List.length_append, hlen]
    have h55 : t.length + 5 - 5 = t.length := by omega
    rw [h55]
    rw [List.take_left t _]

/-- C9: the jobs listing is computed purely from the results directory:
every file named id.json present in the directory contributes exactly
the entry for id, classified done when its size is positive and running
otherwise; an id registered in the jobs dictionary but with no result
file never appears; and every entry of the listing is backed by a .json
file of the directory whose size determines its status. -/
theorem C9_list_jobs_from_directory (dir : DirListing) (id : String) (sz : Nat) :
    ((id ++ ".json", sz) ∈ dir →
      ({ job_id := id, status := if 0 < sz then "done" else "running" } : JobEntry) ∈
        (list_jobs dir).data) ∧
    (list_jobs dir).status = "success" ∧
    (∀ jobsMap : List (String × JobType), (jobsMap.lookup id).isSome = true →
      (∀ p ∈ dir, p.1 ≠ id ++ ".json") →
      ∀ st : String, ({ job_id := id, status := st } : JobEntry) ∉ (list_jobs dir).data) ∧
    (∀ e : JobEntry, e ∈ (list_jobs dir).data →
      ∃ nm s2, (nm, s2) ∈ dir ∧ strEndsWith nm ".json" = true ∧
        e.job_id = strDropLast nm 5 ∧
        (e.status = "done" ↔ 0 < s2) ∧ (e.status = "running" ↔ ¬ 0 < s2)) := by
  refine ⟨?_, rfl, ?_, ?_⟩
  · intro hmem
    apply List.mem_map.mpr
    refine ⟨(id ++ ".json", sz), ?_, ?_⟩
    · exact List.mem_filter.mpr ⟨hmem, strEndsWith_append id⟩
    · simp [strDropLast_append_5]
  · intro jobsMap hreg hnone st hmem
    rcases List.mem_map.mp hmem with ⟨f, hfil, hmap⟩
    rcases List.mem_filter.mp hfil with ⟨hdir, hends⟩
    have hid : strDropLast f.1 5 = id := by
      have := congrArg JobEntry.job_id hmap
      simpa using this
    have hf1 : f.1 = id ++ ".json" := by
      rw [← hid]
      exact strEndsWith_decomp f.1 hends
    exact hnone f hdir hf1
  · intro e hmem
    rcases List.mem_map.mp hmem with ⟨f, hfil, hmap⟩
    rcases List.mem_filter.mp hfil with ⟨hdir, hends⟩
    refine ⟨f.1, f.2, hdir, hends, ?_, ?_, ?_⟩
    · rw [← hmap]
    · rw [← hmap]
      by_cases hsz : 0 < f.2 <;> simp [hsz]
    · rw [← hmap]
      by_cases hsz : 0 < f.2 <;> simp [hsz]

/-- Witness for C9 on a concrete directory: a non-empty result file shows
as done, and a registered id with no file does not appear. -/
theorem C9_list_jobs_from_directory_witness :
    ({ job_id := "job_id_1", status := "done" } : JobEntry) ∈
      (list_jobs [("job_id_1" ++ ".json", 3)]).data ∧
    (∀ st : String, ({ job_id := "job_id_2", status := st } : JobEntry) ∉
      (list_jobs [("job_id_1" ++ ".json", 3)]).data) := by
  constructor
  · have h := (C9_list_jobs_from_directory [("job_id_1" ++ ".json", 3)] "job_id_1" 3).1
      (List.mem_singleton.mpr rfl)
    simpa using h
  · intro st
    exact (C9_list_jobs_from_directory [("job_id_1" ++ ".json", 3)] "job_id_2" 0).2.2.1
      [("job_id_2", JobType.best5)] rfl (by decide) st

end SyncStats
